import Mathlib

set_option maxRecDepth 2000

/-!
A shallow embedding of the Waveshare EPD 4.2 inch module B v2 driver
(`src/epd4in2b_v2/mod.rs` and `src/epd4in2b_v2/command.rs`).

The driver talks to the panel through a `DisplayInterface` collaborator
(bus plus data/command, reset and busy lines).  The collaborator itself is
not part of the driver module; following the spec, every collaborator call
is recorded as an event in a trace, so that a driver operation denotes the
list of bus events it emits together with its return outcome and (for the
state-mutating operations) the updated driver state.
-/

/-- TriColor display color, from `crate::color::TriColor`. -/
inductive TriColor
  | black
  | white
  | chromatic
deriving DecidableEq

/-- Width of the display (`WIDTH` in mod.rs). -/
def WIDTH : Nat := 400

/-- Height of the display (`HEIGHT` in mod.rs). -/
def HEIGHT : Nat := 300

/-- Default background color (`DEFAULT_BACKGROUND_COLOR` in mod.rs). -/
def DEFAULT_BACKGROUND_COLOR : TriColor := TriColor.white

/-- The frame buffer size `(WIDTH / 8 * HEIGHT) as usize` computed by the
driver methods (`let buffer_size = (WIDTH / 8 * HEIGHT) as usize`). -/
def buffer_size : Nat := WIDTH / 8 * HEIGHT

/-- The command enum of `command.rs`, with the one-byte opcode of each
command given by `Command.address` below, exactly the Rust discriminants. -/
inductive Command
  | PanelSetting
  | PowerSetting
  | PowerOff
  | PowerOffSequenceSetting
  | PowerOn
  | PowerOnMeasure
  | BoosterSoftStart
  | DeepSleep
  | DataStartTransmission1
  | DataEntryMode
  | DisplayRefresh
  | DataStartTransmission2
  | Xon
  | MasterActivation
  | DisplayUpdateControl2
  | WriteRamBw
  | RedDataTransmission
  | ReadId
  | BorderWaveformControl
  | SetRamXAddressStartEndPosition
  | SetRamYAddressStartEndPosition
  | SetRamXAddressCounter
  | SetRamYAddressCounter
  | VcomAndDataIntervalSetting
deriving DecidableEq

/-- Opcode of each command (`impl traits::Command for Command`, the enum
discriminants of `command.rs`). -/
def Command.address : Command → Nat
  | .PanelSetting => 0x00
  | .PowerSetting => 0x01
  | .PowerOff => 0x02
  | .PowerOffSequenceSetting => 0x03
  | .PowerOn => 0x04
  | .PowerOnMeasure => 0x05
  | .BoosterSoftStart => 0x06
  | .DeepSleep => 0x07
  | .DataStartTransmission1 => 0x10
  | .DataEntryMode => 0x11
  | .DisplayRefresh => 0x12
  | .DataStartTransmission2 => 0x13
  | .Xon => 0x18
  | .MasterActivation => 0x20
  | .DisplayUpdateControl2 => 0x22
  | .WriteRamBw => 0x24
  | .RedDataTransmission => 0x26
  | .ReadId => 0x2F
  | .BorderWaveformControl => 0x3C
  | .SetRamXAddressStartEndPosition => 0x44
  | .SetRamYAddressStartEndPosition => 0x45
  | .SetRamXAddressCounter => 0x4E
  | .SetRamYAddressCounter => 0x4F
  | .VcomAndDataIntervalSetting => 0x50

/-- Bus / pin events emitted by the driver through the `DisplayInterface`
collaborator.  Modelled from the spec: the collaborator contract exposes
`writeCommandByte` (`cmd`), `writeDataBytes` (`data`, and `dataRep` for
`data_x_times` which transmits one byte value a given number of times),
`assertReset`, `pollBusyLine` (the busy-wait entry `waitIdle`, carrying the
`is_busy_low` polarity argument the driver passes), and `delayMillis`. -/
inductive Ev
  | cmd (b : Nat)
  | data (bs : List Nat)
  | dataRep (b : Nat) (n : Nat)
  | waitIdle (busyLow : Bool)
  | delayMs (n : Nat)
  | reset (durationUs : Nat) (settleUs : Nat)
deriving DecidableEq

/-- One byte on the bus wire: a command byte (data/command line at command
level) or a data byte (line at data level). -/
inductive Wr
  | cmdByte (b : Nat)
  | dataByte (b : Nat)
deriving DecidableEq

/-- The bytes an event puts on the bus.  Polls, delays and reset pulses
write nothing. -/
def Ev.writes : Ev → List Wr
  | .cmd b => [Wr.cmdByte b]
  | .data bs => bs.map Wr.dataByte
  | .dataRep b n => (List.replicate n b).map Wr.dataByte
  | .waitIdle _ => []
  | .delayMs _ => []
  | .reset _ _ => []

/-- All bytes a trace of events puts on the bus, in order. -/
def writesOf : List Ev → List Wr
  | [] => []
  | e :: t => e.writes ++ writesOf t

/-- Bitwise complement of a byte (`!byte` on a Rust u8). -/
def byteNot (b : Nat) : Nat := 255 - b % 256

/-- Driver state: the fields of `Epd4in2bV2` other than the collaborator
handle — the background color and the chip version flag. -/
structure Epd where
  color : TriColor
  flag : Nat
deriving DecidableEq

/-- The `is_busy_low` argument the driver passes to the collaborator in
`wait_until_idle`: `false` when `flag == 1` (busy is active high), `true`
otherwise (busy is active low). -/
def Epd.busyLowArg (e : Epd) : Bool := if e.flag == 1 then false else true

/-- Trace of `fn wait_until_idle`: one busy-wait on the collaborator with
the polarity chosen by the flag. -/
def Epd.wait_until_idle (e : Epd) : List Ev := [Ev.waitIdle e.busyLowArg]

/-- Outcome of a driver call: `ok` models `Ok(())`; `panicked` models a
Rust panic (the `unimplemented!` macro). -/
inductive Outcome
  | ok
  | panicked (msg : String)
deriving DecidableEq

/-- The panic message of the `unimplemented!` call in the partial-update
method. -/
def unsupportedMsg : String := "Partial update not supported for EPD4in2b_v2"

/-- Trace of `fn init` (`InternalWiAdditions::init`): reset pulse, settle
delay, ReadId probe, then the revision-selected register setup. -/
def Epd.init (e : Epd) : List Ev :=
  [Ev.reset 200000 5000, Ev.delayMs 200,
   Ev.cmd Command.ReadId.address, Ev.delayMs 100] ++
  (if e.flag == 1 then
    e.wait_until_idle ++ [Ev.cmd Command.DisplayRefresh.address] ++ e.wait_until_idle ++
    [Ev.cmd Command.BorderWaveformControl.address, Ev.data [0x05],
     Ev.cmd Command.Xon.address, Ev.data [0x80],
     Ev.cmd Command.DataEntryMode.address, Ev.data [0x03],
     Ev.cmd Command.SetRamXAddressStartEndPosition.address,
     Ev.data [0x00, (WIDTH / 8 - 1) % 256],
     Ev.cmd Command.SetRamYAddressStartEndPosition.address,
     Ev.data [0x00, 0x00, (HEIGHT - 1) % 256, (HEIGHT - 1) / 256 % 256],
     Ev.cmd Command.SetRamXAddressCounter.address, Ev.data [0x00],
     Ev.cmd Command.SetRamYAddressCounter.address, Ev.data [0x00, 0x00]] ++
    e.wait_until_idle
  else
    [Ev.cmd Command.PowerOn.address] ++ e.wait_until_idle ++
    [Ev.cmd Command.PanelSetting.address, Ev.data [0x0f]])

/-- `fn new`: builds the state with the default background color and
`flag: 0`, then runs `init`.  Result is the init trace and the state. -/
def Epd.new : List Ev × Epd :=
  let e : Epd := { color := DEFAULT_BACKGROUND_COLOR, flag := 0 }
  (e.init, e)

/-- `fn new_with_flag`: like `new` but with `flag: if flag == 1 { 1 } else { 0 }`. -/
def Epd.new_with_flag (flag : Nat) : List Ev × Epd :=
  let e : Epd := { color := DEFAULT_BACKGROUND_COLOR,
                   flag := if flag == 1 then 1 else 0 }
  (e.init, e)

/-- `fn set_flag`: stores 1 when the argument equals 1 and 0 otherwise. -/
def Epd.set_flag (e : Epd) (flag : Nat) : Epd :=
  { e with flag := if flag == 1 then 1 else 0 }

/-- `fn set_background_color`. -/
def Epd.set_background_color (e : Epd) (c : TriColor) : Epd :=
  { e with color := c }

/-- `fn sleep`: under `flag == 1` it writes DataStartTransmission1 with
payload 0x03; otherwise VcomAndDataIntervalSetting with 0xf7, PowerOff,
wait-until-idle, DeepSleep with 0xA5.  Both branches end with a 2000 ms
delay. -/
def Epd.sleep (e : Epd) : Outcome × List Ev :=
  (Outcome.ok,
    (if e.flag == 1 then
      [Ev.cmd Command.DataStartTransmission1.address, Ev.data [0x03]]
    else
      [Ev.cmd Command.VcomAndDataIntervalSetting.address, Ev.data [0xf7],
       Ev.cmd Command.PowerOff.address] ++ e.wait_until_idle ++
      [Ev.cmd Command.DeepSleep.address, Ev.data [0xA5]]) ++
    [Ev.delayMs 2000])

/-- `fn clear_frame`: wait until idle, then fill the black plane with 0xff
and the chromatic plane with 0x00, with the opcode pair selected by the
flag (`0x24`/`0x26` for flag 1, `0x10`/`0x13` otherwise). -/
def Epd.clear_frame (e : Epd) : Outcome × List Ev :=
  (Outcome.ok,
    e.wait_until_idle ++
    (if e.flag == 1 then
      [Ev.cmd Command.WriteRamBw.address, Ev.dataRep 0xff buffer_size,
       Ev.cmd Command.RedDataTransmission.address, Ev.dataRep 0x00 buffer_size]
    else
      [Ev.cmd Command.DataStartTransmission1.address, Ev.dataRep 0xff buffer_size,
       Ev.cmd Command.DataStartTransmission2.address, Ev.dataRep 0x00 buffer_size]))

/-- `fn update_color_frame`: waits until idle, then checks the buffer
lengths.  On a mismatch the source returns `Ok(())` without transmitting
anything (the comment in the source says a generic error should be
returned).  Otherwise it sends the black buffer under the black-plane
opcode and every chromatic byte complemented under the chromatic-plane
opcode. -/
def Epd.update_color_frame (e : Epd) (black chromatic : List Nat) :
    Outcome × List Ev :=
  let pre := e.wait_until_idle
  if black.length != buffer_size || chromatic.length != buffer_size then
    (Outcome.ok, pre)
  else if e.flag == 1 then
    (Outcome.ok,
      pre ++ [Ev.cmd Command.WriteRamBw.address, Ev.data black,
              Ev.cmd Command.RedDataTransmission.address] ++
      chromatic.map (fun b => Ev.data [byteNot b]))
  else
    (Outcome.ok,
      pre ++ [Ev.cmd Command.DataStartTransmission1.address, Ev.data black,
              Ev.cmd Command.DataStartTransmission2.address] ++
      chromatic.map (fun b => Ev.data [byteNot b]))

/-- `fn update_frame`: delegates to `update_color_frame` with the same
buffer for both planes. -/
def Epd.update_frame (e : Epd) (buffer : List Nat) : Outcome × List Ev :=
  e.update_color_frame buffer buffer

/-- `fn update_partial_frame`: the body is
`unimplemented!("Partial update not supported for EPD4in2b_v2")`, a panic
on every input; no bus event is emitted. -/
def Epd.updatePartialFrame (_e : Epd) (_buffer : List Nat)
    (_x _y _width _height : Nat) : Outcome × List Ev :=
  (Outcome.panicked unsupportedMsg, [])

/-- `fn update_chromatic_frame`: waits until idle, fills the black plane
with 0xff via `data_x_times`, then sends every chromatic byte
complemented.  The source performs no length check on the chromatic
buffer. -/
def Epd.update_chromatic_frame (e : Epd) (chromatic : List Nat) :
    Outcome × List Ev :=
  (Outcome.ok,
    e.wait_until_idle ++
    (if e.flag == 1 then
      [Ev.cmd Command.WriteRamBw.address, Ev.dataRep 0xff buffer_size,
       Ev.cmd Command.RedDataTransmission.address]
    else
      [Ev.cmd Command.DataStartTransmission1.address, Ev.dataRep 0xff buffer_size,
       Ev.cmd Command.DataStartTransmission2.address]) ++
    chromatic.map (fun b => Ev.data [byteNot b]))

/-- `fn update_achromatic_frame`: waits until idle, sends the black buffer
under the black-plane opcode, then clears the chromatic plane with 0x00
via `data_x_times`. -/
def Epd.update_achromatic_frame (e : Epd) (black : List Nat) :
    Outcome × List Ev :=
  (Outcome.ok,
    e.wait_until_idle ++
    (if e.flag == 1 then
      [Ev.cmd Command.WriteRamBw.address, Ev.data black,
       Ev.cmd Command.RedDataTransmission.address, Ev.dataRep 0x00 buffer_size]
    else
      [Ev.cmd Command.DataStartTransmission1.address, Ev.data black,
       Ev.cmd Command.DataStartTransmission2.address, Ev.dataRep 0x00 buffer_size]))

/-- `fn turn_on_display`: flag 1 sends DisplayUpdateControl2 with 0xF7 and
MasterActivation then waits until idle; flag 0 sends DisplayRefresh,
delays 100 ms, then waits until idle. -/
def Epd.turn_on_display (e : Epd) : Outcome × List Ev :=
  (Outcome.ok,
    if e.flag == 1 then
      [Ev.cmd Command.DisplayUpdateControl2.address, Ev.data [0xF7],
       Ev.cmd Command.MasterActivation.address] ++ e.wait_until_idle
    else
      [Ev.cmd Command.DisplayRefresh.address, Ev.delayMs 100] ++ e.wait_until_idle)

/-- `fn display_frame`: delegates to `turn_on_display`. -/
def Epd.display_frame (e : Epd) : Outcome × List Ev :=
  e.turn_on_display

/-- `fn set_lut`: documented no-op returning success. -/
def Epd.set_lut (_e : Epd) : Outcome × List Ev :=
  (Outcome.ok, [])

/-- Modelled from the spec: the busy condition of the collaborator busy
poll (`DisplayInterface::wait_until_idle`, not under src/).  With
`is_busy_low = true` the panel is busy while the line reads logic-low;
with `is_busy_low = false` it is busy while the line reads logic-high. -/
def busyAt (isBusyLow : Bool) (pinHigh : Bool) : Bool :=
  if isBusyLow then !pinHigh else pinHigh

/-- Modelled from the spec: the collaborator busy-poll loop
(`DisplayInterface::wait_until_idle`, not under src/): poll the busy line
repeatedly until it reports not-busy per the polarity, sleeping between
polls.  `pin k` is the line level read at poll `k`; the loop is given
explicit fuel since the source enforces no timeout, and returns the index
of the poll at which it exited, or none if the fuel ran out while busy. -/
def waitLoop (isBusyLow : Bool) (pin : Nat → Bool) : Nat → Nat → Option Nat
  | 0, _ => none
  | fuel + 1, k =>
    if busyAt isBusyLow (pin k) then waitLoop isBusyLow pin fuel (k + 1)
    else some k

/-! ## Helper lemmas about traces and the busy poll -/

@[simp]
theorem writesOf_nil : writesOf [] = [] := rfl

@[simp]
theorem writesOf_cons (e : Ev) (t : List Ev) :
    writesOf (e :: t) = e.writes ++ writesOf t := rfl

@[simp]
theorem writesOf_append (s t : List Ev) :
    writesOf (s ++ t) = writesOf s ++ writesOf t := by
  induction s with
  | nil => simp
  | cons e s ih => simp [ih]

@[simp]
theorem writesOf_map_single_data (g : Nat → Nat) (l : List Nat) :
    writesOf (l.map fun b => Ev.data [g b]) =
      l.map fun b => Wr.dataByte (g b) := by
  induction l with
  | nil => rfl
  | cons a t ih => simp [Ev.writes, ih]

theorem buffer_size_eq : buffer_size = 15000 := rfl

theorem waitLoop_le (isBusyLow : Bool) (pin : Nat → Bool) :
    ∀ fuel k j, waitLoop isBusyLow pin fuel k = some j → k ≤ j := by
  intro fuel
  induction fuel with
  | zero => intro k j h; simp [waitLoop] at h
  | succ n ih =>
    intro k j h
    rw [waitLoop] at h
    by_cases hb : busyAt isBusyLow (pin k) = true
    · rw [if_pos hb] at h
      exact Nat.le_of_succ_le (ih (k + 1) j h)
    · rw [if_neg hb] at h
      exact Option.some_inj.mp h ▸ Nat.le_refl k

theorem waitLoop_exit_iff (isBusyLow : Bool) (pin : Nat → Bool)
    (fuel k : Nat) :
    waitLoop isBusyLow pin (fuel + 1) k = some k ↔
      busyAt isBusyLow (pin k) = false := by
  constructor
  · intro h
    by_contra hb
    rw [waitLoop, if_pos (Bool.of_not_eq_false hb)] at h
    have := waitLoop_le isBusyLow pin fuel (k + 1) k h
    omega
  · intro h
    rw [waitLoop, if_neg (by simp [h])]

theorem waitLoop_busy_forever (isBusyLow : Bool) (pin : Nat → Bool)
    (hbusy : ∀ j, busyAt isBusyLow (pin j) = true) :
    ∀ fuel k, waitLoop isBusyLow pin fuel k = none := by
  intro fuel
  induction fuel with
  | zero => intro k; rfl
  | succ n ih =>
    intro k
    rw [waitLoop, if_pos (hbusy k)]
    exact ih (k + 1)

/-! ## Claims -/

/-- Claim C1: the claim says a buffer-length mismatch makes
`update_color_frame` return a SizeMismatch error with no bus writes.  The
source instead returns `Ok(())` after the initial busy-wait, transmitting
nothing — its own comment says a generic error should be returned.  At the
failing input (flag 0, both buffers empty) the call succeeds with only the
busy-wait in the trace and zero bytes written. -/
theorem C1_size_mismatch_silent_success :
    Epd.update_color_frame ⟨TriColor.white, 0⟩ [] [] =
      (Outcome.ok, [Ev.waitIdle true]) ∧
    writesOf (Epd.update_color_frame ⟨TriColor.white, 0⟩ [] []).2 = [] := by
  constructor
  · rfl
  · rfl

/-- Claim C2: the claim says `update_partial_frame` returns an
Unsupported-class error and never aborts.  The source body is an
`unimplemented!` macro call, which panics on every input; at the concrete
input below the embedded method yields a panic outcome, not `Ok`. -/
theorem C2_partial_frame_panics :
    Epd.updatePartialFrame ⟨TriColor.white, 0⟩ [] 0 0 0 0 =
      (Outcome.panicked unsupportedMsg, []) ∧
    Outcome.panicked unsupportedMsg ≠ Outcome.ok := by
  constructor
  · rfl
  · simp

/-- Claim C3: for buffers of exactly 15000 bytes, `update_color_frame`
transmits every black byte unchanged under the black-plane opcode of the
revision (0x10 for V0, 0x24 for V1) and every chromatic byte
bitwise-complemented under the chromatic-plane opcode (0x13 for V0, 0x26
for V1), in that order, returning success. -/
theorem C3_update_color_frame_planes (e : Epd) (black chromatic : List Nat)
    (hb : black.length = 15000) (hc : chromatic.length = 15000) :
    (e.update_color_frame black chromatic).1 = Outcome.ok ∧
    (e.flag = 0 →
      writesOf (e.update_color_frame black chromatic).2 =
        [Wr.cmdByte 0x10] ++ black.map Wr.dataByte ++
        [Wr.cmdByte 0x13] ++ (chromatic.map fun b => Wr.dataByte (byteNot b))) ∧
    (e.flag = 1 →
      writesOf (e.update_color_frame black chromatic).2 =
        [Wr.cmdByte 0x24] ++ black.map Wr.dataByte ++
        [Wr.cmdByte 0x26] ++ (chromatic.map fun b => Wr.dataByte (byteNot b))) := by
  have hcond :
      (black.length != buffer_size || chromatic.length != buffer_size) = false := by
    simp [hb, hc, buffer_size_eq]
  refine ⟨?_, ?_, ?_⟩
  · by_cases hf : e.flag == 1 <;>
      simp [Epd.update_color_frame, hcond, hf]
  · intro h
    simp [Epd.update_color_frame, hcond, h, Epd.wait_until_idle,
          Epd.busyLowArg, Ev.writes, Command.address]
  · intro h
    simp [Epd.update_color_frame, hcond, h, Epd.wait_until_idle,
          Epd.busyLowArg, Ev.writes, Command.address]

/-- Witness for C3 at a concrete pair of 15000-byte buffers. -/
theorem C3_update_color_frame_planes_witness :
    (Epd.update_color_frame ⟨TriColor.white, 0⟩ (List.replicate 15000 0xAB)
        (List.replicate 15000 0x12)).1 = Outcome.ok ∧
    writesOf (Epd.update_color_frame ⟨TriColor.white, 0⟩
        (List.replicate 15000 0xAB) (List.replicate 15000 0x12)).2 =
      [Wr.cmdByte 0x10] ++ (List.replicate 15000 0xAB).map Wr.dataByte ++
      [Wr.cmdByte 0x13] ++
      ((List.replicate 15000 0x12).map fun b => Wr.dataByte (byteNot b)) := by
  have h := C3_update_color_frame_planes ⟨TriColor.white, 0⟩
    (List.replicate 15000 0xAB) (List.replicate 15000 0x12)
    (by rw [List.length_replicate]) (by rw [List.length_replicate])
  exact ⟨h.1, h.2.1 rfl⟩

/-- Claim C4: `clear_frame` first waits until idle, then under V0 (flag 0)
sends opcode 0x10 followed by 15000 data bytes 0xFF and opcode 0x13
followed by 15000 data bytes 0x00; under V1 (flag 1) the same with
opcodes 0x24 and 0x26. -/
theorem C4_clear_frame_sequence (e : Epd) :
    buffer_size = 15000 ∧
    (e.flag = 0 →
      (e.clear_frame).2 =
        [Ev.waitIdle true, Ev.cmd 0x10, Ev.dataRep 0xff buffer_size,
         Ev.cmd 0x13, Ev.dataRep 0x00 buffer_size] ∧
      writesOf (e.clear_frame).2 =
        [Wr.cmdByte 0x10] ++ List.replicate buffer_size (Wr.dataByte 0xff) ++
        [Wr.cmdByte 0x13] ++ List.replicate buffer_size (Wr.dataByte 0x00)) ∧
    (e.flag = 1 →
      (e.clear_frame).2 =
        [Ev.waitIdle false, Ev.cmd 0x24, Ev.dataRep 0xff buffer_size,
         Ev.cmd 0x26, Ev.dataRep 0x00 buffer_size] ∧
      writesOf (e.clear_frame).2 =
        [Wr.cmdByte 0x24] ++ List.replicate buffer_size (Wr.dataByte 0xff) ++
        [Wr.cmdByte 0x26] ++ List.replicate buffer_size (Wr.dataByte 0x00)) := by
  refine ⟨buffer_size_eq, ?_, ?_⟩ <;> intro h <;>
    simp [Epd.clear_frame, Epd.wait_until_idle, Epd.busyLowArg, h,
          Ev.writes, Command.address, List.map_replicate]

/-- Witness for C4 at the default-revision driver state. -/
theorem C4_clear_frame_sequence_witness :
    (Epd.clear_frame ⟨TriColor.white, 0⟩).2 =
      [Ev.waitIdle true, Ev.cmd 0x10, Ev.dataRep 0xff buffer_size,
       Ev.cmd 0x13, Ev.dataRep 0x00 buffer_size] ∧
    writesOf (Epd.clear_frame ⟨TriColor.white, 0⟩).2 =
      [Wr.cmdByte 0x10] ++ List.replicate buffer_size (Wr.dataByte 0xff) ++
      [Wr.cmdByte 0x13] ++ List.replicate buffer_size (Wr.dataByte 0x00) :=
  (C4_clear_frame_sequence ⟨TriColor.white, 0⟩).2.1 rfl

/-- Claim C5: `sleep` under V0 (flag 0) issues exactly
VcomAndDataIntervalSetting (0x50) with payload 0xF7, PowerOff (0x02), a
wait-until-idle, DeepSleep (0x07) with payload 0xA5; under V1 (flag 1)
exactly DataStartTransmission1 (0x10) with payload 0x03; both followed by
a 2000 ms delay. -/
theorem C5_sleep_sequence (e : Epd) :
    (e.flag = 0 →
      e.sleep = (Outcome.ok,
        [Ev.cmd 0x50, Ev.data [0xF7], Ev.cmd 0x02, Ev.waitIdle true,
         Ev.cmd 0x07, Ev.data [0xA5], Ev.delayMs 2000])) ∧
    (e.flag = 1 →
      e.sleep = (Outcome.ok,
        [Ev.cmd 0x10, Ev.data [0x03], Ev.delayMs 2000])) := by
  constructor <;> intro h <;>
    simp [Epd.sleep, Epd.wait_until_idle, Epd.busyLowArg, h, Command.address]

/-- Witness for C5 at the default-revision driver state. -/
theorem C5_sleep_sequence_witness :
    Epd.sleep ⟨TriColor.white, 0⟩ = (Outcome.ok,
      [Ev.cmd 0x50, Ev.data [0xF7], Ev.cmd 0x02, Ev.waitIdle true,
       Ev.cmd 0x07, Ev.data [0xA5], Ev.delayMs 2000]) :=
  (C5_sleep_sequence ⟨TriColor.white, 0⟩).1 rfl

/-- Claim C6: busy-wait polarity.  The driver passes `is_busy_low = true`
under V0 (flag 0) and `false` under V1 (flag 1); with the busy-poll loop
modelled from the spec, under V0 the loop exits at a poll exactly when the
line reads logic-high there and can never exit while every reading is
logic-low, and under V1 it exits exactly on a logic-low reading and can
never exit while every reading is logic-high. -/
theorem C6_busy_polarity (e : Epd) (pin : Nat → Bool) (fuel k : Nat) :
    (e.flag = 0 →
      (waitLoop e.busyLowArg pin (fuel + 1) k = some k ↔ pin k = true) ∧
      ((∀ j, pin j = false) → waitLoop e.busyLowArg pin fuel k = none)) ∧
    (e.flag = 1 →
      (waitLoop e.busyLowArg pin (fuel + 1) k = some k ↔ pin k = false) ∧
      ((∀ j, pin j = true) → waitLoop e.busyLowArg pin fuel k = none)) := by
  constructor <;> intro h
  · have harg : e.busyLowArg = true := by simp [Epd.busyLowArg, h]
    rw [harg]
    constructor
    · rw [waitLoop_exit_iff]
      simp [busyAt]
    · intro hlow
      exact waitLoop_busy_forever true pin (by simp [busyAt, hlow]) fuel k
  · have harg : e.busyLowArg = false := by simp [Epd.busyLowArg, h]
    rw [harg]
    constructor
    · rw [waitLoop_exit_iff]
      simp [busyAt]
    · intro hhigh
      exact waitLoop_busy_forever false pin (by simp [busyAt, hhigh]) fuel k

/-- Witness for C6: a V0 driver exits the poll immediately when the busy
line reads high at the first poll. -/
theorem C6_busy_polarity_witness :
    waitLoop (Epd.busyLowArg ⟨TriColor.white, 0⟩) (fun _ => true) 1 0 = some 0 :=
  (((C6_busy_polarity ⟨TriColor.white, 0⟩ (fun _ => true) 0 0).1 rfl).1).mpr rfl

/-- Claim C7: `display_frame` (through `turn_on_display`) under V0 (flag 0)
issues DisplayRefresh (0x12), a 100 ms delay, then waits until idle; under
V1 (flag 1) it issues DisplayUpdateControl2 (0x22) with payload 0xF7, then
MasterActivation (0x20), then waits until idle. -/
theorem C7_display_frame_sequence (e : Epd) :
    (e.flag = 0 →
      e.display_frame = (Outcome.ok,
        [Ev.cmd 0x12, Ev.delayMs 100, Ev.waitIdle true])) ∧
    (e.flag = 1 →
      e.display_frame = (Outcome.ok,
        [Ev.cmd 0x22, Ev.data [0xF7], Ev.cmd 0x20, Ev.waitIdle false])) := by
  constructor <;> intro h <;>
    simp [Epd.display_frame, Epd.turn_on_display, Epd.wait_until_idle,
          Epd.busyLowArg, h, Command.address]

/-- Witness for C7 at a V1 driver state. -/
theorem C7_display_frame_sequence_witness :
    Epd.display_frame ⟨TriColor.white, 1⟩ = (Outcome.ok,
      [Ev.cmd 0x22, Ev.data [0xF7], Ev.cmd 0x20, Ev.waitIdle false]) :=
  (C7_display_frame_sequence ⟨TriColor.white, 1⟩).2 rfl

/-- Claim C8: the claim says `update_chromatic_frame` is subject to the
same size rule as `update_color_frame` and fails with a SizeMismatch error
on a chromatic buffer whose length is not 15000.  The source performs no
length check at all: at the failing input (flag 0, a one-byte chromatic
buffer) it succeeds, fills the black plane with 0xFF and transmits the
single complemented byte — the bus writes are nonempty instead of the
call failing. -/
theorem C8_chromatic_no_size_check :
    buffer_size = 15000 ∧
    Epd.update_chromatic_frame ⟨TriColor.white, 0⟩ [0] =
      (Outcome.ok,
        [Ev.waitIdle true, Ev.cmd 0x10, Ev.dataRep 0xff buffer_size,
         Ev.cmd 0x13, Ev.data [255]]) ∧
    writesOf (Epd.update_chromatic_frame ⟨TriColor.white, 0⟩ [0]).2 ≠ [] := by
  refine ⟨buffer_size_eq, ?_, ?_⟩
  · simp [Epd.update_chromatic_frame, Epd.wait_until_idle, Epd.busyLowArg,
          Command.address, byteNot]
  · simp [Epd.update_chromatic_frame, Epd.wait_until_idle, Epd.busyLowArg,
          Command.address, Ev.writes]

/-- Claim C9: construction without an explicit revision override
(`Epd.new`) yields flag 0 (revision V0) and background color White; flag 1
(revision V1) results exactly when the explicit configuration argument
equals 1, via `set_flag` or `new_with_flag`. -/
theorem C9_default_construction :
    (Epd.new.2.flag = 0 ∧ Epd.new.2.color = TriColor.white) ∧
    (∀ e : Epd, ∀ f : Nat, (e.set_flag f).flag = 1 ↔ f = 1) ∧
    (∀ f : Nat, (Epd.new_with_flag f).2.flag = 1 ↔ f = 1) := by
  refine ⟨⟨rfl, rfl⟩, ?_, ?_⟩
  · intro e f
    by_cases hf : f = 1 <;> simp [Epd.set_flag, hf]
  · intro f
    by_cases hf : f = 1 <;> simp [Epd.new_with_flag, hf]

/-- The driver operations that act on a constructed driver, for stating
the flag invariant.  Each constructor is a public method of the driver;
apart from `setFlag` and `setBackgroundColor` no method assigns any field
of the state. -/
inductive Op
  | setFlag (f : Nat)
  | setBackgroundColor (c : TriColor)
  | sleep
  | wakeUp
  | clearFrame
  | displayFrame
  | waitUntilIdle
  | updateFrame (buffer : List Nat)
  | updateAndDisplayFrame (buffer : List Nat)
  | updateColorFrame (black : List Nat) (chromatic : List Nat)
  | updateChromaticFrame (chromatic : List Nat)
  | updateAchromaticFrame (black : List Nat)
  | updatePartialFrame (buffer : List Nat) (x y w h : Nat)
  | setLut

/-- Effect of each operation on the driver state.  Only `set_flag` writes
the flag field and only `set_background_color` writes the color field; all
other methods take `&mut self` but never assign to either field in the
source, so they leave the state unchanged. -/
def stepOp (e : Epd) : Op → Epd
  | .setFlag f => e.set_flag f
  | .setBackgroundColor c => e.set_background_color c
  | .sleep => e
  | .wakeUp => e
  | .clearFrame => e
  | .displayFrame => e
  | .waitUntilIdle => e
  | .updateFrame _ => e
  | .updateAndDisplayFrame _ => e
  | .updateColorFrame _ _ => e
  | .updateChromaticFrame _ => e
  | .updateAchromaticFrame _ => e
  | .updatePartialFrame _ _ _ _ _ => e
  | .setLut => e

/-- Run a sequence of operations from a state. -/
def runOps (e : Epd) : List Op → Epd
  | [] => e
  | op :: rest => runOps (stepOp e op) rest

/-- The chip-version flag is an element of {0, 1}. -/
def flagInv (e : Epd) : Prop := e.flag = 0 ∨ e.flag = 1

theorem set_flag_flagInv (e : Epd) (f : Nat) : flagInv (e.set_flag f) := by
  by_cases hf : f = 1
  · right
    simp [Epd.set_flag, hf]
  · left
    simp [Epd.set_flag, hf]

theorem stepOp_flagInv (e : Epd) (op : Op) (h : flagInv e) :
    flagInv (stepOp e op) := by
  cases op with
  | setFlag f => exact set_flag_flagInv e f
  | setBackgroundColor c => exact h
  | sleep => exact h
  | wakeUp => exact h
  | clearFrame => exact h
  | displayFrame => exact h
  | waitUntilIdle => exact h
  | updateFrame buffer => exact h
  | updateAndDisplayFrame buffer => exact h
  | updateColorFrame black chromatic => exact h
  | updateChromaticFrame chromatic => exact h
  | updateAchromaticFrame black => exact h
  | updatePartialFrame buffer x y w hh => exact h
  | setLut => exact h

theorem runOps_flagInv (ops : List Op) :
    ∀ e : Epd, flagInv e → flagInv (runOps e ops) := by
  induction ops with
  | nil => intro e h; exact h
  | cons op rest ih => intro e h; exact ih (stepOp e op) (stepOp_flagInv e op h)

/-- Claim C10: `set_flag` and `new_with_flag` store 1 exactly when the
argument is 1 and 0 for every other argument, and along any sequence of
driver operations started from either constructor the flag stays in
{0, 1}. -/
theorem C10_flag_always_binary (e : Epd) (f : Nat) (ops : List Op) :
    (e.set_flag f).flag = (if f == 1 then 1 else 0) ∧
    (Epd.new_with_flag f).2.flag = (if f == 1 then 1 else 0) ∧
    flagInv (runOps Epd.new.2 ops) ∧
    flagInv (runOps (Epd.new_with_flag f).2 ops) := by
  refine ⟨rfl, rfl, ?_, ?_⟩
  · exact runOps_flagInv ops Epd.new.2 (Or.inl rfl)
  · refine runOps_flagInv ops (Epd.new_with_flag f).2 ?_
    by_cases hf : f = 1
    · right
      simp [Epd.new_with_flag, hf]
    · left
      simp [Epd.new_with_flag, hf]

/-- Witness for C10: after an out-of-range `set_flag 7` on a fresh driver
the flag is still in {0, 1}. -/
theorem C10_flag_always_binary_witness :
    flagInv (runOps Epd.new.2 [Op.setFlag 7]) :=
  (C10_flag_always_binary Epd.new.2 7 [Op.setFlag 7]).2.2.1
